import Mathlib

/-!
Verification development for the CaseforAI backend (src/main.py).

The service is a FastAPI document-ingestion and semantic-search backend.  The
definitions below are a shallow embedding of the handlers in src/main.py:

* `upload_file` embeds the POST /upload handler (main.py lines 157-238),
* `upload_file_to_s3` embeds the S3 archival helper (main.py lines 106-135),
* `query_documents` embeds the GET /query handler (main.py lines 241-274),
* `list_chunks` embeds the GET /chunks handler (main.py lines 277-295).

External collaborators (file readers, the embedding model, the Pinecone index,
S3) are modelled as explicit outcome parameters in an environment record; the
third-party chunker (`SentenceSplitter(chunk_size=1024, chunk_overlap=200)`,
main.py line 81) and the top-k retriever are modelled from the specification,
as their implementations are not part of this repository.
-/

namespace CaseforAI

/-! ## Python string and path helpers

`Path(filename).suffix.lower()` (main.py line 161) is embedded over character
lists: `pathlibName` models `PurePosixPath(s).name` (the last non-empty,
non-dot component of the slash-separated path) and `pySuffix` models the
`suffix` property (the last-dot extension, empty when the dot is the first or
last character of the name).  `asciiLower` models `str.lower()` on the ASCII
range, which covers every supported extension key. -/

def splitSlash : List Char → List (List Char)
  | [] => [[]]
  | c :: rest =>
    match splitSlash rest with
    | [] => [[c]]
    | s :: ss => if c = '/' then [] :: s :: ss else (c :: s) :: ss

def pathlibName (l : List Char) : List Char :=
  (((splitSlash l).filter (fun s => s != [] && s != ['.'])).getLast?).getD []

def pySuffix (name : List Char) : List Char :=
  let tl := name.reverse.takeWhile (fun c => c != '.')
  if tl.length + 1 < name.length && 0 < tl.length then
    name.drop (name.length - tl.length - 1)
  else []

def asciiLower (s : String) : String := String.mk (s.data.map Char.toLower)

/-- Extension computation of the upload handler (main.py line 161):
`Path(file.filename).suffix.lower()`. -/
def ext_of (fn : String) : String :=
  asciiLower (String.mk (pySuffix (pathlibName fn.data)))

/-- Keys of the `readers` dict in insertion order (main.py lines 138-144). -/
def supportedExtensions : List String := [".pdf", ".docx", ".txt", ".md", ".xlsx"]

/-- Single-quote character, used by Python `repr` of strings. -/
def sq : Char := Char.ofNat 39

/-- Python `repr` of a plain string (no escaping needed for the inputs used). -/
def pyRepr (s : String) : String := String.mk (sq :: s.data ++ [sq])

/-- Python `str(list_of_strings)`, as interpolated at main.py line 165. -/
def pyListRepr (xs : List String) : String :=
  "[" ++ String.intercalate ", " (xs.map pyRepr) ++ "]"

/-! ## Python dict model

Document metadata is a Python dict with string keys; it is embedded as an
association list with unique keys, assignment replacing in place. -/

def dictSet (m : List (String × String)) (k v : String) : List (String × String) :=
  match m with
  | [] => [(k, v)]
  | p :: rest => if p.1 = k then (k, v) :: rest else p :: dictSet rest k v

def dictGet (m : List (String × String)) (k : String) : Option String :=
  match m with
  | [] => none
  | p :: rest => if p.1 = k then some p.2 else dictGet rest k

theorem dictGet_dictSet_self (m : List (String × String)) (k v : String) :
    dictGet (dictSet m k v) k = some v := by
  induction m with
  | nil => simp [dictSet, dictGet]
  | cons p rest ih =>
    by_cases h : p.1 = k
    · simp [dictSet, dictGet, h]
    · simp [dictSet, dictGet, h, ih]

theorem dictGet_dictSet_of_ne (m : List (String × String)) (k v k2 : String)
    (h : k ≠ k2) : dictGet (dictSet m k v) k2 = dictGet m k2 := by
  induction m with
  | nil => simp [dictSet, dictGet, h]
  | cons p rest ih =>
    by_cases hp : p.1 = k
    · simp [dictSet, dictGet, hp, h, hp ▸ h]
    · by_cases hp2 : p.1 = k2
      · simp [dictSet, dictGet, hp, hp2, Ne.symm h]
      · simp [dictSet, dictGet, hp, hp2, ih]

/-! ## Documents, chunks, and the chunker

`Document` and the nodes produced by the node parser both carry a text and a
metadata dict.  The splitter itself is third-party
(`SentenceSplitter(chunk_size=1024, chunk_overlap=200)`, main.py line 81); its
splitting policy is modelled from the spec. -/

structure PyDocument where
  text : List Char
  metadata : List (String × String)
deriving Repr, DecidableEq

structure PyNode where
  text : List Char
  metadata : List (String × String)
deriving Repr, DecidableEq

/-- Modelled from the spec: the splitting algorithm of the node parser
(`SentenceSplitter(chunk_size=1024, chunk_overlap=200)`, main.py line 81),
whose implementation lives in the third-party llama-index library.  Per the
spec, it walks the text producing "consecutive windows of length ≤ target
size, where each window after the first begins `size − overlap` characters
after the previous window's start, continuing until the document's text is
exhausted; a final shorter window is retained rather than dropped or padded".
The `size ≤ overlap` guard is never reached for the configured parameters; it
only makes the recursion total. -/
def chunkWindows (size overlap : Nat) (l : List Char) : List (List Char) :=
  if h : l.length ≤ size ∨ size ≤ overlap then [l]
  else l.take size :: chunkWindows size overlap (l.drop (size - overlap))
termination_by l.length
decreasing_by
  simp only [List.length_drop]
  omega

/-- Number of windows `chunkWindows` produces on a text of length `L`. -/
def numChunks (size overlap L : Nat) : Nat :=
  if h : L ≤ size ∨ size ≤ overlap then 1
  else 1 + numChunks size overlap (L - (size - overlap))
termination_by L
decreasing_by omega

/-- Modelled from the spec: chunks inherit all of their document's metadata
unmodified ("Each Chunk inherits all of its Document's metadata unmodified").
Embeds `node_parser.get_nodes_from_documents(documents)` (main.py line 188). -/
def get_nodes_from_documents (docs : List PyDocument) : List PyNode :=
  docs.flatMap (fun d => (chunkWindows 1024 200 d.text).map (fun w => ⟨w, d.metadata⟩))

theorem chunkWindows_small (size overlap : Nat) (l : List Char)
    (hl : l.length ≤ size) : chunkWindows size overlap l = [l] := by
  rw [chunkWindows]
  exact dif_pos (Or.inl hl)

theorem chunkWindows_step (size overlap : Nat) (l : List Char)
    (h1 : ¬ l.length ≤ size) (h2 : ¬ size ≤ overlap) :
    chunkWindows size overlap l =
      l.take size :: chunkWindows size overlap (l.drop (size - overlap)) := by
  rw [chunkWindows]
  exact dif_neg (by rintro (h | h) <;> contradiction)

theorem numChunks_small (size overlap L : Nat) (hl : L ≤ size) :
    numChunks size overlap L = 1 := by
  rw [numChunks]
  exact dif_pos (Or.inl hl)

theorem numChunks_step (size overlap L : Nat)
    (h1 : ¬ L ≤ size) (h2 : ¬ size ≤ overlap) :
    numChunks size overlap L = 1 + numChunks size overlap (L - (size - overlap)) := by
  rw [numChunks]
  exact dif_neg (by rintro (h | h) <;> contradiction)

theorem numChunks_pos (size overlap L : Nat) : 1 ≤ numChunks size overlap L := by
  rw [numChunks]
  split <;> omega

theorem chunkWindows_char (size overlap : Nat) (h : overlap < size) :
    ∀ (fuel : Nat) (l : List Char), l.length ≤ fuel →
      chunkWindows size overlap l =
        (List.range (numChunks size overlap l.length)).map
          (fun i => (l.drop (i * (size - overlap))).take size) := by
  intro fuel
  induction fuel with
  | zero =>
    intro l hl
    have hnil : l.length ≤ size := by omega
    rw [chunkWindows_small _ _ _ hnil, numChunks_small _ _ _ hnil]
    simp [List.range_succ, List.take_of_length_le hnil]
  | succ n ih =>
    intro l hl
    by_cases hls : l.length ≤ size
    · rw [chunkWindows_small _ _ _ hls, numChunks_small _ _ _ hls]
      simp [List.range_succ, List.take_of_length_le hls]
    · have h2 : ¬ size ≤ overlap := by omega
      rw [chunkWindows_step _ _ _ hls h2, numChunks_step _ _ _ hls h2]
      rw [Nat.add_comm 1 _, List.range_succ_eq_map, List.map_cons, List.map_map]
      have hdl : (l.drop (size - overlap)).length ≤ n := by
        rw [List.length_drop]; omega
      rw [ih (l.drop (size - overlap)) hdl, List.length_drop]
      congr 1
      · rw [Nat.zero_mul, List.drop_zero]
      · apply List.map_congr_left
        intro i _
        simp only [Function.comp]
        rw [List.drop_drop, Nat.succ_mul,
          Nat.add_comm (i * (size - overlap)) (size - overlap)]

theorem chunkWindows_getLast (size overlap : Nat) (h : overlap < size) :
    ∀ (fuel : Nat) (l : List Char), l.length ≤ fuel →
      (chunkWindows size overlap l).getLast? =
        some (l.drop ((numChunks size overlap l.length - 1) * (size - overlap))) := by
  intro fuel
  induction fuel with
  | zero =>
    intro l hl
    have hnil : l.length ≤ size := by omega
    rw [chunkWindows_small _ _ _ hnil, numChunks_small _ _ _ hnil]
    simp
  | succ n ih =>
    intro l hl
    by_cases hls : l.length ≤ size
    · rw [chunkWindows_small _ _ _ hls, numChunks_small _ _ _ hls]
      simp
    · have h2 : ¬ size ≤ overlap := by omega
      rw [chunkWindows_step _ _ _ hls h2, numChunks_step _ _ _ hls h2]
      have hdl : (l.drop (size - overlap)).length ≤ n := by
        rw [List.length_drop]; omega
      have hrec := ih (l.drop (size - overlap)) hdl
      rw [List.length_drop] at hrec
      rw [List.getLast?_cons, hrec]
      simp only [Option.getD_some]
      rw [List.drop_drop]
      have hm := numChunks_pos size overlap (l.length - (size - overlap))
      set m := numChunks size overlap (l.length - (size - overlap)) with hmdef
      have hidx : size - overlap + (m - 1) * (size - overlap) =
          (1 + m - 1) * (size - overlap) := by
        have hq : 1 + m - 1 = m := by omega
        rw [hq, Nat.add_comm (size - overlap) ((m - 1) * (size - overlap)),
          ← Nat.succ_mul]
        congr 1
        omega
      rw [hidx]

/-! ## Archive Store helper

`upload_file_to_s3` (main.py lines 106-135) builds a date-partitioned key
`documents/YYYY/MM/DD/<uuid8>_<filename>`, issues one `put_object` call with
original-filename and upload-timestamp metadata, and returns the object URL.
The nondeterministic inputs (`datetime.now()`, `uuid.uuid4()`) are explicit
parameters of the environment. -/

structure S3Env where
  bucket : String
  year : Nat
  month : Nat
  day : Nat
  uuid_str : String
  now_iso : String
deriving Repr, DecidableEq

structure S3PutObject where
  bucket : String
  key : String
  body : String
  content_type : String
  metadata : List (String × String)
deriving Repr, DecidableEq

/-- Zero-padded two-digit field, as produced by `strftime` `%m` / `%d`. -/
def pad2 (n : Nat) : String := if n < 10 then "0" ++ toString n else toString n

/-- Model of `datetime.now().strftime("%Y/%m/%d")` (main.py line 110); years in
1000..9999 print as four digits. -/
def dateStr (e : S3Env) : String :=
  toString e.year ++ "/" ++ pad2 e.month ++ "/" ++ pad2 e.day

/-- Model of `str(uuid.uuid4())[:8]` (main.py line 111). -/
def strTake8 (s : String) : String := String.mk (s.data.take 8)

def s3KeyOf (e : S3Env) (filename : String) : String :=
  "documents/" ++ dateStr e ++ "/" ++ strTake8 e.uuid_str ++ "_" ++ filename

/-- Embeds `upload_file_to_s3` (main.py lines 106-135): the issued `put_object`
call and the returned URL.  The `file_extension` local in the source is unused
there and is not modelled; a failing `put_object` raises and is handled by the
caller (modelled by the caller's environment). -/
def upload_file_to_s3 (file_content filename content_type : String)
    (e : S3Env) : S3PutObject × String :=
  let s3_key := s3KeyOf e filename
  let call : S3PutObject :=
    { bucket := e.bucket
      key := s3_key
      body := file_content
      content_type := content_type
      metadata := [("original_filename", filename), ("upload_timestamp", e.now_iso)] }
  let s3_url := "https://" ++ e.bucket ++ ".s3.amazonaws.com/" ++ s3_key
  (call, s3_url)

/-! ## Upload orchestrator

`upload_file` (main.py lines 157-238).  The outcomes of the external calls —
reading the request body, the extension-selected reader, `index.insert_nodes`,
and the S3 `put_object` — are environment fields carrying either a result or
the string of the raised exception.  The observable side effects of one
request are recorded alongside the HTTP outcome.

Control flow mirrors the source: the whole body is wrapped in
`try ... except Exception as e: raise HTTPException(500, "Error processing
file: " + str(e))` (lines 159, 236-238), so the `HTTPException(400, ...)`
raised for an unsupported extension (line 163) is itself caught by that
blanket handler and resurfaces as a 500 whose detail wraps
`str(e) = "400: <detail>"`.  The temporary file is created with
`delete=False` (line 169) and removed only by the inner `try/finally`
(lines 232-234); a failure while reading or writing the body (line 172-173)
happens before that inner `try` is entered, so that path leaves the file on
disk. -/

structure UploadEnv where
  filename : String
  content_type : Option String
  read_result : Except String String
  extract_result : Except String (List PyDocument)
  insert_result : Except String Unit
  s3_result : Except String Unit
  s3env : S3Env
  now_iso : String
deriving Repr

structure UploadResponse where
  message : String
  filename : String
  documents_processed : Nat
  chunks_created : Nat
  file_type : String
  s3_url : Option String
  warning : Option String
  s3_error : Option String
deriving Repr, DecidableEq

structure UploadEffects where
  temp_created : Bool
  temp_deleted : Bool
  extraction_attempted : Bool
  insert_attempted : Bool
  inserted_nodes : Option (List PyNode)
  archive_attempted : Bool
  archive_written : Bool
deriving Repr, DecidableEq

inductive UploadOutcome where
  | response (status : Nat) (body : UploadResponse)
  | httpError (status : Nat) (detail : String)
deriving Repr, DecidableEq

def noEffects : UploadEffects :=
  { temp_created := false, temp_deleted := false, extraction_attempted := false
    insert_attempted := false, inserted_nodes := none
    archive_attempted := false, archive_written := false }

/-- Metadata attachment of main.py lines 182-185: `doc.metadata["filename"]`,
`doc.metadata["file_type"]`, `doc.metadata["upload_timestamp"]`. -/
def set_upload_metadata (env : UploadEnv) (d : PyDocument) : PyDocument :=
  { d with metadata := dictSet (dictSet (dictSet d.metadata "filename" env.filename) "file_type" (ext_of env.filename)) "upload_timestamp" env.now_iso }

def unsupportedDetail : String :=
  "Unsupported file type. Supported: " ++ pyListRepr supportedExtensions

def upload_file (env : UploadEnv) : UploadOutcome × UploadEffects :=
  let ext := ext_of env.filename
  if supportedExtensions.contains ext then
    match env.read_result with
    | .error e =>
      (.httpError 500 ("Error processing file: " ++ e),
       { noEffects with temp_created := true })
    | .ok content =>
      match env.extract_result with
      | .error e =>
        (.httpError 500 ("Error processing file: " ++ e),
         { noEffects with temp_created := true, temp_deleted := true
                          extraction_attempted := true })
      | .ok documents =>
        let documents := documents.map (set_upload_metadata env)
        let nodes := get_nodes_from_documents documents
        match env.insert_result with
        | .error e =>
          (.httpError 500 ("Error processing file: " ++ e),
           { noEffects with temp_created := true, temp_deleted := true
                            extraction_attempted := true, insert_attempted := true })
        | .ok _ =>
          match env.s3_result with
          | .ok _ =>
            let s3_url :=
              (upload_file_to_s3 content env.filename
                (env.content_type.getD "application/octet-stream") env.s3env).2
            (.response 200
              { message := "File uploaded and processed successfully"
                filename := env.filename
                documents_processed := documents.length
                chunks_created := nodes.length
                file_type := ext
                s3_url := some s3_url
                warning := none
                s3_error := none },
             { temp_created := true, temp_deleted := true
               extraction_attempted := true, insert_attempted := true
               inserted_nodes := some nodes
               archive_attempted := true, archive_written := true })
          | .error e =>
            (.response 200
              { message := "File uploaded and processed successfully"
                filename := env.filename
                documents_processed := documents.length
                chunks_created := nodes.length
                file_type := ext
                s3_url := none
                warning := some
                  ("Document processed successfully but S3 upload failed: " ++ e)
                s3_error := some e },
             { temp_created := true, temp_deleted := true
               extraction_attempted := true, insert_attempted := true
               inserted_nodes := some nodes
               archive_attempted := true, archive_written := false })
  else
    (.httpError 500 ("Error processing file: 400: " ++ unsupportedDetail), noEffects)

/-! ## Query handler

`query_documents` (main.py lines 241-274).  FastAPI's
`Query(10, ge=1, le=50)` supplies the default when the parameter is absent
and rejects out-of-range values with a request-validation error (HTTP 422)
before the handler body runs — it does not clamp.  The Vector Index's ranked
retrieval is modelled from the spec. -/

structure IndexEntry where
  id : String
  text : String
  metadata : List (String × String)
  score : Int
deriving Repr, DecidableEq

structure QueryResult where
  id : String
  text : String
  score : Int
  metadata : List (String × String)
deriving Repr, DecidableEq

structure QueryResponse where
  query : String
  results : List QueryResult
  total_results : Nat
deriving Repr, DecidableEq

/-- Descending-score order on index entries. -/
def scoreGE (a b : IndexEntry) : Prop := b.score ≤ a.score

instance : DecidableRel scoreGE := fun a b => inferInstanceAs (Decidable (b.score ≤ a.score))

instance : IsTotal IndexEntry scoreGE := ⟨fun a b => le_total b.score a.score⟩

instance : IsTrans IndexEntry scoreGE := ⟨fun _ _ _ h1 h2 => le_trans h2 h1⟩

/-- FastAPI parameter semantics for `limit: int = Query(10, ge=1, le=50)`
(main.py line 244): absent → default 10; present but outside [1, 50] → the
request is rejected with a validation error and the handler never runs. -/
def parse_limit (p : Option Int) : Except Unit Int :=
  match p with
  | none => .ok 10
  | some l => if 1 ≤ l ∧ l ≤ 50 then .ok l else .error ()

/-- Modelled from the spec: `index.as_retriever(similarity_top_k=limit)
.retrieve(q)` (main.py lines 254-255) is third-party; per the spec it returns
"the bound's-worth of nearest IndexRecords ranked by the Vector Index's own
similarity metric (descending score)".  The index's scored candidates for the
query are the `entries` parameter. -/
def retrieve (entries : List IndexEntry) (k : Nat) : List IndexEntry :=
  (entries.insertionSort scoreGE).take k

/-- Embeds `query_documents` (main.py lines 241-268): validated limit, ranked
retrieval, then the response rows built field-by-field as at lines 257-268.
`Except.error s` is the HTTP status of a rejected request. -/
def query_documents (entries : List IndexEntry) (q : String) (p : Option Int) :
    Except Nat QueryResponse :=
  match parse_limit p with
  | .error _ => .error 422
  | .ok lim =>
    let nodes := retrieve entries lim.toNat
    let results := nodes.map (fun n =>
      { id := n.id, text := n.text, score := n.score, metadata := n.metadata : QueryResult })
    .ok { query := q, results := results, total_results := results.length }

/-- Clamping into [1, 50] as the claim words it ("clamped to [1, 50]"); stated
from the spec's words for comparison with the code's validate-and-reject
behaviour. -/
def spec_clamp (l : Int) : Int := max 1 (min 50 l)

/-! ## Chunks listing handler

`list_chunks` (main.py lines 277-295): accepts `limit: int = Query(100, ge=1,
le=1000)` but never reads it; the response is assembled from the index's
aggregate statistics only. -/

structure IndexStats where
  total_vector_count : Option Nat
  index_fullness : Option Int
  namespaces : Option (List (String × Nat))
deriving Repr, DecidableEq

structure ChunksResponse where
  total_vectors : Nat
  index_fullness : Int
  namespaces : List (String × Nat)
  note : String
deriving Repr, DecidableEq

def list_chunks (limit : Nat) (stats : IndexStats) : ChunksResponse :=
  { total_vectors := stats.total_vector_count.getD 0
    index_fullness := stats.index_fullness.getD 0
    namespaces := stats.namespaces.getD []
    note := "Use /query endpoint to search specific chunks" }

/-! ## Path lemmas for the upload orchestrator -/

theorem metadata_of_mem_get_nodes (ds : List PyDocument) (n : PyNode)
    (hn : n ∈ get_nodes_from_documents ds) : ∃ d ∈ ds, n.metadata = d.metadata := by
  unfold get_nodes_from_documents at hn
  obtain ⟨d, hd, hn2⟩ := List.mem_flatMap.mp hn
  obtain ⟨w, _, rfl⟩ := List.mem_map.mp hn2
  exact ⟨d, hd, rfl⟩

theorem upload_file_success_eq (env : UploadEnv) (content : String)
    (docs : List PyDocument)
    (hext : ext_of env.filename ∈ supportedExtensions)
    (hread : env.read_result = Except.ok content)
    (hdocs : env.extract_result = Except.ok docs)
    (hins : env.insert_result = Except.ok ())
    (hs3 : env.s3_result = Except.ok ()) :
    upload_file env =
      (UploadOutcome.response 200
        { message := "File uploaded and processed successfully"
          filename := env.filename
          documents_processed := docs.length
          chunks_created :=
            (get_nodes_from_documents (docs.map (set_upload_metadata env))).length
          file_type := ext_of env.filename
          s3_url := some (upload_file_to_s3 content env.filename
            (env.content_type.getD "application/octet-stream") env.s3env).2
          warning := none
          s3_error := none },
       { temp_created := true, temp_deleted := true
         extraction_attempted := true, insert_attempted := true
         inserted_nodes := some (get_nodes_from_documents (docs.map (set_upload_metadata env)))
         archive_attempted := true, archive_written := true }) := by
  simp [upload_file, hext, hread, hdocs, hins, hs3]

theorem upload_file_s3fail_eq (env : UploadEnv) (content : String)
    (docs : List PyDocument) (e : String)
    (hext : ext_of env.filename ∈ supportedExtensions)
    (hread : env.read_result = Except.ok content)
    (hdocs : env.extract_result = Except.ok docs)
    (hins : env.insert_result = Except.ok ())
    (hs3 : env.s3_result = Except.error e) :
    upload_file env =
      (UploadOutcome.response 200
        { message := "File uploaded and processed successfully"
          filename := env.filename
          documents_processed := docs.length
          chunks_created :=
            (get_nodes_from_documents (docs.map (set_upload_metadata env))).length
          file_type := ext_of env.filename
          s3_url := none
          warning := some
            ("Document processed successfully but S3 upload failed: " ++ e)
          s3_error := some e },
       { temp_created := true, temp_deleted := true
         extraction_attempted := true, insert_attempted := true
         inserted_nodes := some (get_nodes_from_documents (docs.map (set_upload_metadata env)))
         archive_attempted := true, archive_written := false }) := by
  simp [upload_file, hext, hread, hdocs, hins, hs3]

/-! ## Claim theorems -/

/-- C1: for every uploaded file whose lowercased filename extension is outside
the supported set, the handler performs no side effects (no temp file, no
extraction, no index mutation, no archive write) and names the supported
extensions in its error detail — but the `HTTPException(400, ...)` raised at
main.py line 163 is caught by the handler's own blanket
`except Exception` (line 236) and re-raised as a 500 whose detail wraps the
400 message, so the client receives HTTP 500, not the HTTP 400 the claim and
the spec state. -/
theorem upload_unsupported_extension_behavior (env : UploadEnv)
    (hext : ext_of env.filename ∉ supportedExtensions) :
    upload_file env =
      (UploadOutcome.httpError 500
        ("Error processing file: 400: " ++ unsupportedDetail), noEffects) := by
  simp [upload_file, hext]

/-- Witness for C1 at the failing input `report.exe`: the supported-set check
fails, the handler responds 500 with the wrapped 400 detail, and no side
effect happens. -/
theorem upload_unsupported_extension_behavior_witness :
    ext_of "report.exe" ∉ supportedExtensions ∧
    upload_file
      { filename := "report.exe", content_type := some "application/pdf"
        read_result := Except.ok "bytes", extract_result := Except.ok []
        insert_result := Except.ok (), s3_result := Except.ok ()
        s3env := { bucket := "b", year := 2026, month := 10, day := 12
                   uuid_str := "u", now_iso := "t" }
        now_iso := "t" } =
      (UploadOutcome.httpError 500
        ("Error processing file: 400: " ++ unsupportedDetail), noEffects) :=
  ⟨by decide,
   upload_unsupported_extension_behavior _ (by decide)⟩

/-- C2: for every document text, the chunker configured with size 1024 and
overlap 200 (main.py line 81) produces exactly the windows
`(text.drop (i*824)).take 1024` for `i = 0, 1, ...` — so each window after
the first begins exactly `1024 − 200 = 824` characters after the previous
window's start — every window has length at most 1024, and the final window
is the whole remaining text (retained rather than dropped or padded). -/
theorem chunker_window_layout (l : List Char) :
    chunkWindows 1024 200 l =
      (List.range (numChunks 1024 200 l.length)).map
        (fun i => (l.drop (i * 824)).take 1024)
    ∧ (∀ w ∈ chunkWindows 1024 200 l, w.length ≤ 1024)
    ∧ (chunkWindows 1024 200 l).getLast? =
        some (l.drop ((numChunks 1024 200 l.length - 1) * 824)) := by
  have hchar := chunkWindows_char 1024 200 (by norm_num) l.length l le_rfl
  have hlast := chunkWindows_getLast 1024 200 (by norm_num) l.length l le_rfl
  refine ⟨hchar, ?_, hlast⟩
  intro w hw
  rw [hchar] at hw
  obtain ⟨i, _, rfl⟩ := List.mem_map.mp hw
  simp [List.length_take]

/-- C3: when embedding-and-index insertion (`index.insert_nodes`, main.py
line 193) fails, the whole request fails with HTTP 500 and the Archive Store
write is never attempted. -/
theorem upload_insert_failure_no_archive (env : UploadEnv) (content : String)
    (docs : List PyDocument) (e : String)
    (hext : ext_of env.filename ∈ supportedExtensions)
    (hread : env.read_result = Except.ok content)
    (hdocs : env.extract_result = Except.ok docs)
    (hins : env.insert_result = Except.error e) :
    upload_file env =
      (UploadOutcome.httpError 500 ("Error processing file: " ++ e),
       { noEffects with temp_created := true, temp_deleted := true
                        extraction_attempted := true, insert_attempted := true }) := by
  simp [upload_file, hext, hread, hdocs, hins]

/-- Witness for C3: a concrete upload whose index insertion fails reports a
processing error and attempts no archive write. -/
theorem upload_insert_failure_no_archive_witness :
    ext_of "notes.txt" ∈ supportedExtensions ∧
    upload_file
      { filename := "notes.txt", content_type := some "text/plain"
        read_result := Except.ok "hello world"
        extract_result := Except.ok [{ text := "hello world".data, metadata := [] }]
        insert_result := Except.error "pinecone unavailable"
        s3_result := Except.ok ()
        s3env := { bucket := "b", year := 2026, month := 10, day := 12
                   uuid_str := "u", now_iso := "t" }
        now_iso := "t" } =
      (UploadOutcome.httpError 500
        ("Error processing file: " ++ "pinecone unavailable"),
       { noEffects with temp_created := true, temp_deleted := true
                        extraction_attempted := true, insert_attempted := true }) :=
  ⟨by decide,
   upload_insert_failure_no_archive _ "hello world"
     [{ text := "hello world".data, metadata := [] }] "pinecone unavailable"
     (by decide) rfl rfl rfl⟩

/-- C4: when indexing succeeds but the Archive Store write fails (main.py
lines 204-226), the request still returns HTTP 200 with the document and
chunk counts, the response carries the explicit warning and the archival
error detail, and `s3_url` is null. -/
theorem upload_archive_failure_nonfatal (env : UploadEnv) (content : String)
    (docs : List PyDocument) (e : String)
    (hext : ext_of env.filename ∈ supportedExtensions)
    (hread : env.read_result = Except.ok content)
    (hdocs : env.extract_result = Except.ok docs)
    (hins : env.insert_result = Except.ok ())
    (hs3 : env.s3_result = Except.error e) :
    upload_file env =
      (UploadOutcome.response 200
        { message := "File uploaded and processed successfully"
          filename := env.filename
          documents_processed := docs.length
          chunks_created :=
            (get_nodes_from_documents (docs.map (set_upload_metadata env))).length
          file_type := ext_of env.filename
          s3_url := none
          warning := some
            ("Document processed successfully but S3 upload failed: " ++ e)
          s3_error := some e },
       { temp_created := true, temp_deleted := true
         extraction_attempted := true, insert_attempted := true
         inserted_nodes := some (get_nodes_from_documents (docs.map (set_upload_metadata env)))
         archive_attempted := true, archive_written := false }) :=
  upload_file_s3fail_eq env content docs e hext hread hdocs hins hs3

/-- Witness for C4: a concrete upload whose archive write fails still
responds 200, with the warning and error detail set and a null `s3_url`. -/
theorem upload_archive_failure_nonfatal_witness :
    ext_of "notes.txt" ∈ supportedExtensions ∧
    upload_file
      { filename := "notes.txt", content_type := some "text/plain"
        read_result := Except.ok "hello world"
        extract_result := Except.ok [{ text := "hello world".data, metadata := [] }]
        insert_result := Except.ok ()
        s3_result := Except.error "bucket missing"
        s3env := { bucket := "b", year := 2026, month := 10, day := 12
                   uuid_str := "u", now_iso := "t" }
        now_iso := "t" } =
      (UploadOutcome.response 200
        { message := "File uploaded and processed successfully"
          filename := "notes.txt"
          documents_processed := 1
          chunks_created :=
            (get_nodes_from_documents
              ([{ text := "hello world".data, metadata := [] }].map
                (set_upload_metadata
                  { filename := "notes.txt", content_type := some "text/plain"
                    read_result := Except.ok "hello world"
                    extract_result :=
                      Except.ok [{ text := "hello world".data, metadata := [] }]
                    insert_result := Except.ok ()
                    s3_result := Except.error "bucket missing"
                    s3env := { bucket := "b", year := 2026, month := 10, day := 12
                               uuid_str := "u", now_iso := "t" }
                    now_iso := "t" }))).length
          file_type := ".txt"
          s3_url := none
          warning := some
            ("Document processed successfully but S3 upload failed: " ++ "bucket missing")
          s3_error := some "bucket missing" },
       { temp_created := true, temp_deleted := true
         extraction_attempted := true, insert_attempted := true
         inserted_nodes := some (get_nodes_from_documents
           ([{ text := "hello world".data, metadata := [] }].map
             (set_upload_metadata
               { filename := "notes.txt", content_type := some "text/plain"
                 read_result := Except.ok "hello world"
                 extract_result :=
                   Except.ok [{ text := "hello world".data, metadata := [] }]
                 insert_result := Except.ok ()
                 s3_result := Except.error "bucket missing"
                 s3env := { bucket := "b", year := 2026, month := 10, day := 12
                            uuid_str := "u", now_iso := "t" }
                 now_iso := "t" })))
         archive_attempted := true, archive_written := false }) :=
  ⟨by decide,
   upload_archive_failure_nonfatal _ "hello world"
     [{ text := "hello world".data, metadata := [] }] "bucket missing"
     (by decide) rfl rfl rfl rfl⟩

/-- C5: every chunk handed to `index.insert_nodes` by a successful upload
carries metadata with the originating filename, the (lowercased) file type,
and the upload timestamp, inherited from its Document's metadata as set at
main.py lines 182-185 before chunking. -/
theorem inserted_chunks_metadata (env : UploadEnv) (content : String)
    (docs : List PyDocument)
    (hext : ext_of env.filename ∈ supportedExtensions)
    (hread : env.read_result = Except.ok content)
    (hdocs : env.extract_result = Except.ok docs)
    (hins : env.insert_result = Except.ok ()) :
    ∀ n ∈ ((upload_file env).2.inserted_nodes.getD []),
      dictGet n.metadata "filename" = some env.filename
      ∧ dictGet n.metadata "file_type" = some (ext_of env.filename)
      ∧ dictGet n.metadata "upload_timestamp" = some env.now_iso := by
  have hnodes : (upload_file env).2.inserted_nodes =
      some (get_nodes_from_documents (docs.map (set_upload_metadata env))) := by
    cases hs3 : env.s3_result with
    | ok u =>
      cases u
      rw [upload_file_success_eq env content docs hext hread hdocs hins hs3]
    | error e =>
      rw [upload_file_s3fail_eq env content docs e hext hread hdocs hins hs3]
  rw [hnodes]
  intro n hn
  obtain ⟨d, hd, hmeta⟩ :=
    metadata_of_mem_get_nodes (docs.map (set_upload_metadata env)) n (by simpa using hn)
  obtain ⟨d0, _, rfl⟩ := List.mem_map.mp hd
  rw [hmeta]
  simp only [set_upload_metadata]
  refine ⟨?_, ?_, ?_⟩
  · rw [dictGet_dictSet_of_ne _ _ _ _ (by decide),
      dictGet_dictSet_of_ne _ _ _ _ (by decide), dictGet_dictSet_self]
  · rw [dictGet_dictSet_of_ne _ _ _ _ (by decide), dictGet_dictSet_self]
  · rw [dictGet_dictSet_self]

/-- Witness for C5: on a concrete successful upload, every inserted chunk's
metadata records the filename, file type and upload timestamp. -/
theorem inserted_chunks_metadata_witness :
    ext_of "notes.txt" ∈ supportedExtensions ∧
    ∀ n ∈ ((upload_file
      { filename := "notes.txt", content_type := some "text/plain"
        read_result := Except.ok "hello world"
        extract_result := Except.ok [{ text := "hello world".data, metadata := [] }]
        insert_result := Except.ok ()
        s3_result := Except.ok ()
        s3env := { bucket := "b", year := 2026, month := 10, day := 12
                   uuid_str := "u", now_iso := "t" }
        now_iso := "2026-10-12T00:00:00" }).2.inserted_nodes.getD []),
      dictGet n.metadata "filename" = some "notes.txt"
      ∧ dictGet n.metadata "file_type" = some (ext_of "notes.txt")
      ∧ dictGet n.metadata "upload_timestamp" = some "2026-10-12T00:00:00" :=
  ⟨by decide,
   inserted_chunks_metadata _ "hello world"
     [{ text := "hello world".data, metadata := [] }]
     (by decide) rfl rfl rfl⟩

/-- C7: the claim says the temporary file is deleted on every exit path; the
code creates it with `delete=False` (main.py line 169) and unlinks it only in
the inner `try/finally` (lines 232-234), so on any upload whose body read (or
temp-file write, line 172-173) fails after the temp file is created, the file
is left on disk. -/
theorem upload_read_failure_leaks_temp (env : UploadEnv) (e : String)
    (hext : ext_of env.filename ∈ supportedExtensions)
    (hread : env.read_result = Except.error e) :
    upload_file env =
      (UploadOutcome.httpError 500 ("Error processing file: " ++ e),
       { noEffects with temp_created := true }) := by
  simp [upload_file, hext, hread]

/-- Witness for C7 at the failing input: a `.pdf` upload whose body read
fails leaves the temporary file created but not deleted. -/
theorem upload_read_failure_leaks_temp_witness :
    ext_of "report.pdf" ∈ supportedExtensions ∧
    upload_file
      { filename := "report.pdf", content_type := some "application/pdf"
        read_result := Except.error "client disconnected"
        extract_result := Except.ok []
        insert_result := Except.ok (), s3_result := Except.ok ()
        s3env := { bucket := "b", year := 2026, month := 10, day := 12
                   uuid_str := "u", now_iso := "t" }
        now_iso := "t" } =
      (UploadOutcome.httpError 500
        ("Error processing file: " ++ "client disconnected"),
       { noEffects with temp_created := true }) :=
  ⟨by decide,
   upload_read_failure_leaks_temp _ "client disconnected" (by decide) rfl⟩

/-! ## Query handler lemmas -/

theorem parse_limit_ok_bounds (p : Option Int) (l : Int)
    (h : parse_limit p = Except.ok l) : 1 ≤ l ∧ l ≤ 50 := by
  cases p with
  | none =>
    simp only [parse_limit] at h
    cases h
    omega
  | some x =>
    simp only [parse_limit] at h
    split at h
    · rename_i hc
      cases h
      omega
    · simp at h

/-- C6 (amended): the limit parameter defaults to 10 and is validated to lie
in [1, 50] — an out-of-range value is rejected with a request-validation
error (HTTP 422) rather than clamped; for every accepted limit, at most that
many results are returned, ranked by descending similarity score, each result
carries an index record's identifier, stored text, score, and metadata, and
`total_results` equals the number of results returned. -/
theorem query_documents_contract (entries : List IndexEntry) (q : String)
    (p : Option Int) :
    parse_limit none = Except.ok 10
    ∧ (∀ l : Int, p = some l → (l < 1 ∨ 50 < l) →
        query_documents entries q p = Except.error 422)
    ∧ (∀ resp, query_documents entries q p = Except.ok resp →
        ∃ l : Int, parse_limit p = Except.ok l ∧ 1 ≤ l ∧ l ≤ 50
          ∧ resp.query = q
          ∧ resp.total_results = resp.results.length
          ∧ resp.results.length ≤ l.toNat
          ∧ resp.results.Pairwise (fun a b => b.score ≤ a.score)
          ∧ ∀ r ∈ resp.results, ∃ en ∈ entries, r.id = en.id ∧ r.text = en.text
              ∧ r.score = en.score ∧ r.metadata = en.metadata) := by
  refine ⟨rfl, ?_, ?_⟩
  · intro l hp hout
    subst hp
    simp only [query_documents, parse_limit]
    rw [if_neg (by omega)]
  · intro resp hresp
    unfold query_documents at hresp
    cases hp : parse_limit p with
    | error u => rw [hp] at hresp; simp at hresp
    | ok l =>
      rw [hp] at hresp
      simp only [Except.ok.injEq] at hresp
      subst hresp
      obtain ⟨hb1, hb2⟩ := parse_limit_ok_bounds p l hp
      refine ⟨l, rfl, hb1, hb2, rfl, rfl, ?_, ?_, ?_⟩
      · rw [List.length_map]
        unfold retrieve
        rw [List.length_take]
        exact Nat.min_le_left _ _
      · have hs : List.Sorted scoreGE (entries.insertionSort scoreGE) :=
          List.sorted_insertionSort scoreGE entries
        have htake : List.Pairwise scoreGE
            ((entries.insertionSort scoreGE).take l.toNat) :=
          List.Pairwise.sublist (List.take_sublist _ _) hs
        exact List.Pairwise.map _ (fun a b hab => hab) htake
      · intro r hr
        obtain ⟨n, hn, rfl⟩ := List.mem_map.mp hr
        have hn2 : n ∈ entries.insertionSort scoreGE :=
          List.mem_of_mem_take hn
        have hn3 : n ∈ entries := (List.mem_insertionSort scoreGE).mp hn2
        exact ⟨n, hn3, rfl, rfl, rfl, rfl⟩

/-- Counterexample for C6 as stated: the result-count bound is not clamped to
[1, 50] — at `limit=51` the code rejects the request with a validation error
(HTTP 422) and the handler never runs, while the clamp the claim describes
would have served the request with bound 50. -/
theorem query_limit_not_clamped :
    query_documents [] "hello" (some 51) = Except.error 422
    ∧ spec_clamp 51 = 50 :=
  ⟨rfl, rfl⟩

def witnessEntries : List IndexEntry :=
  [{ id := "a", text := "alpha", metadata := [], score := 1 },
   { id := "b", text := "beta", metadata := [("filename", "x.txt")], score := 3 }]

def witnessResponse : QueryResponse :=
  { query := "hello"
    results :=
      [{ id := "b", text := "beta", score := 3, metadata := [("filename", "x.txt")] },
       { id := "a", text := "alpha", score := 1, metadata := [] }]
    total_results := 2 }

/-- Witness for C6: at `limit=51` the request is rejected; at `limit=2` over a
two-record index the contract's conclusions hold for the concrete response. -/
theorem query_documents_contract_witness :
    query_documents [] "hello" (some 51) = Except.error 422
    ∧ (∃ l : Int, parse_limit (some 2) = Except.ok l ∧ 1 ≤ l ∧ l ≤ 50
        ∧ witnessResponse.query = "hello"
        ∧ witnessResponse.total_results = witnessResponse.results.length
        ∧ witnessResponse.results.length ≤ l.toNat
        ∧ witnessResponse.results.Pairwise (fun a b => b.score ≤ a.score)
        ∧ ∀ r ∈ witnessResponse.results, ∃ en ∈ witnessEntries, r.id = en.id
            ∧ r.text = en.text ∧ r.score = en.score ∧ r.metadata = en.metadata) :=
  ⟨(query_documents_contract [] "hello" (some 51)).2.1 51 rfl (by omega),
   (query_documents_contract witnessEntries "hello" (some 2)).2.2 witnessResponse rfl⟩

/-- C8: every successful archive write stores the file under the key
`documents/<YYYY/MM/DD>/<first 8 uuid chars>_<original filename>`, records the
original filename and the upload timestamp in the object metadata, and
returns a URL that contains the key (main.py lines 106-131). -/
theorem upload_file_to_s3_layout (fc fn ct : String) (e : S3Env)
    (h8 : 8 ≤ e.uuid_str.length) :
    (upload_file_to_s3 fc fn ct e).1.key =
      "documents/" ++ dateStr e ++ "/" ++ strTake8 e.uuid_str ++ "_" ++ fn
    ∧ dateStr e = toString e.year ++ "/" ++ pad2 e.month ++ "/" ++ pad2 e.day
    ∧ (strTake8 e.uuid_str).length = 8
    ∧ dictGet (upload_file_to_s3 fc fn ct e).1.metadata "original_filename" = some fn
    ∧ dictGet (upload_file_to_s3 fc fn ct e).1.metadata "upload_timestamp" =
        some e.now_iso
    ∧ (upload_file_to_s3 fc fn ct e).2 =
        "https://" ++ e.bucket ++ ".s3.amazonaws.com/"
          ++ (upload_file_to_s3 fc fn ct e).1.key := by
  refine ⟨rfl, rfl, ?_, rfl, rfl, rfl⟩
  have h8d : 8 ≤ e.uuid_str.data.length := h8
  show (e.uuid_str.data.take 8).length = 8
  rw [List.length_take]
  omega

def s3w : S3Env :=
  { bucket := "caseforai-bucket", year := 2026, month := 10, day := 12
    uuid_str := "123e4567-e89b-12d3-a456-426614174000"
    now_iso := "2026-10-12T00:00:00" }

/-- Witness for C8 at a concrete archive write. -/
theorem upload_file_to_s3_layout_witness :
    8 ≤ s3w.uuid_str.length
    ∧ ((upload_file_to_s3 "body" "report.pdf" "application/pdf" s3w).1.key =
        "documents/" ++ dateStr s3w ++ "/" ++ strTake8 s3w.uuid_str ++ "_" ++ "report.pdf"
      ∧ dateStr s3w = toString s3w.year ++ "/" ++ pad2 s3w.month ++ "/" ++ pad2 s3w.day
      ∧ (strTake8 s3w.uuid_str).length = 8
      ∧ dictGet (upload_file_to_s3 "body" "report.pdf" "application/pdf" s3w).1.metadata
          "original_filename" = some "report.pdf"
      ∧ dictGet (upload_file_to_s3 "body" "report.pdf" "application/pdf" s3w).1.metadata
          "upload_timestamp" = some s3w.now_iso
      ∧ (upload_file_to_s3 "body" "report.pdf" "application/pdf" s3w).2 =
          "https://" ++ s3w.bucket ++ ".s3.amazonaws.com/"
            ++ (upload_file_to_s3 "body" "report.pdf" "application/pdf" s3w).1.key) :=
  ⟨by decide,
   upload_file_to_s3_layout "body" "report.pdf" "application/pdf" s3w (by decide)⟩

/-- C9: extension matching is case-insensitive — the extension is lowercased
(main.py line 161) before the lookup in the supported set, so `REPORT.PDF`
maps to `.pdf` and is accepted, and on success both the `file_type` reported
in the response and the `file_type` attached to every inserted chunk's
metadata are the lowercased extension. -/
theorem upload_extension_case_insensitive (env : UploadEnv) (content : String)
    (docs : List PyDocument)
    (hext : ext_of env.filename ∈ supportedExtensions)
    (hread : env.read_result = Except.ok content)
    (hdocs : env.extract_result = Except.ok docs)
    (hins : env.insert_result = Except.ok ())
    (hs3 : env.s3_result = Except.ok ()) :
    ext_of "REPORT.PDF" = ".pdf"
    ∧ ext_of "REPORT.PDF" ∈ supportedExtensions
    ∧ (∃ b, (upload_file env).1 = UploadOutcome.response 200 b
        ∧ b.file_type = ext_of env.filename)
    ∧ (∀ n ∈ ((upload_file env).2.inserted_nodes.getD []),
        dictGet n.metadata "file_type" = some (ext_of env.filename)) := by
  refine ⟨by decide, by decide, ?_, ?_⟩
  · rw [upload_file_success_eq env content docs hext hread hdocs hins hs3]
    exact ⟨_, rfl, rfl⟩
  · rw [upload_file_success_eq env content docs hext hread hdocs hins hs3]
    intro n hn
    obtain ⟨d, hd, hmeta⟩ :=
      metadata_of_mem_get_nodes (docs.map (set_upload_metadata env)) n (by simpa using hn)
    obtain ⟨d0, _, rfl⟩ := List.mem_map.mp hd
    rw [hmeta]
    simp only [set_upload_metadata]
    rw [dictGet_dictSet_of_ne _ _ _ _ (by decide), dictGet_dictSet_self]

def envReport : UploadEnv :=
  { filename := "REPORT.PDF", content_type := some "application/pdf"
    read_result := Except.ok "bytes"
    extract_result := Except.ok [{ text := "hello world".data, metadata := [] }]
    insert_result := Except.ok (), s3_result := Except.ok ()
    s3env := s3w, now_iso := "2026-10-12T00:00:00" }

/-- Witness for C9: the upper-case filename `REPORT.PDF` is accepted and
processed with `file_type = ".pdf"`. -/
theorem upload_extension_case_insensitive_witness :
    ext_of envReport.filename ∈ supportedExtensions
    ∧ (ext_of "REPORT.PDF" = ".pdf"
      ∧ ext_of "REPORT.PDF" ∈ supportedExtensions
      ∧ (∃ b, (upload_file envReport).1 = UploadOutcome.response 200 b
          ∧ b.file_type = ext_of envReport.filename)
      ∧ (∀ n ∈ ((upload_file envReport).2.inserted_nodes.getD []),
          dictGet n.metadata "file_type" = some (ext_of envReport.filename))) :=
  ⟨by decide,
   upload_extension_case_insensitive envReport "bytes"
     [{ text := "hello world".data, metadata := [] }]
     (by decide) rfl rfl rfl rfl⟩

/-- C10: the /chunks handler's response does not depend on its `limit`
parameter — for any two accepted limit values in [1, 1000] and the same index
statistics, the responses are identical (main.py lines 277-291 never read
`limit`). -/
theorem list_chunks_limit_independent (l1 l2 : Nat) (s : IndexStats)
    (h1 : 1 ≤ l1) (h2 : l1 ≤ 1000) (h3 : 1 ≤ l2) (h4 : l2 ≤ 1000) :
    list_chunks l1 s = list_chunks l2 s := rfl

/-- Witness for C10 at two concrete accepted limits over the same stats. -/
theorem list_chunks_limit_independent_witness :
    (1 ≤ 3 ∧ 3 ≤ 1000 ∧ 1 ≤ 900 ∧ 900 ≤ 1000)
    ∧ list_chunks 3
        { total_vector_count := some 7, index_fullness := some 0, namespaces := none }
      = list_chunks 900
        { total_vector_count := some 7, index_fullness := some 0, namespaces := none } :=
  ⟨by decide,
   list_chunks_limit_independent 3 900
     { total_vector_count := some 7, index_fullness := some 0, namespaces := none }
     (by decide) (by decide) (by decide) (by decide)⟩

end CaseforAI
